import Mathlib

/-!
Verification of the capability-negotiation and device-discovery layer of the
`magma` crate, as a shallow embedding in Lean 4.

Rust sources embedded here:
- `src/lib.rs` (`Entry` and its memoized capability queries),
- `src/instance/mod.rs` (`Instance::with_validation_layers`, the
  `From<vk::Result> for CreationError` conversion, physical-device accessors,
  and the lazy per-extension function tables),
- `src/sync/sharing_mode.rs` (`SharingQueues::as_vulkan`),
- `src/mem/memory_requirements.rs` (`MemoryRequirements::align_to`).

The capability registries (`src/instance/extension.rs`, `src/instance/layer.rs`)
and the `PhysicalDevice` view type (`src/instance/physical_device.rs`) are not
part of the provided sources; they are modelled from the specification (closed
enumerations with canonical name strings, fixed bit-flag sets, index-based
views) and are marked as such in their doc comments.

Rust panics are modelled by the `PanicOr` type; native driver calls
(`ash::Entry::create_instance`, `enumerate_physical_devices`, capability
enumeration) are modelled as explicit inputs, and the mutation of the
`once_cell::sync::OnceCell` caches is modelled by explicit state passing with a
boolean flag recording whether the underlying driver query / resolution was
performed by the call.
-/

namespace Magma

/-- Outcome of a Rust computation that may panic: either a panic with its
message, or a normal value. `unreachable!` is modelled as a panic as well. -/
inductive PanicOr (α : Type) where
  | panic (msg : String)
  | ok (v : α)
deriving DecidableEq, Repr

/-- Vulkan sharing mode (`vk::SharingMode`), restricted to the two values the
code uses. -/
inductive SharingMode where
  | EXCLUSIVE
  | CONCURRENT
deriving DecidableEq, Repr

/-- Embeds `SharingQueues` from `src/sync/sharing_mode.rs`: a device tag
(standing for the `Arc<Device>`) and the vector of queue family indices. -/
structure SharingQueues where
  device : Nat
  queues : List Nat
deriving DecidableEq, Repr

/-- Embeds `SharingQueues::as_vulkan` (src/sync/sharing_mode.rs lines 15-21).
The returned raw pointer is modelled as an `Option (List Nat)`: `none` for
`std::ptr::null()`, `some qs` for `self.queues.as_ptr()`. The `as u32` cast is
modelled by `% 2 ^ 32`. -/
def SharingQueues.as_vulkan (s : SharingQueues) : SharingMode × Nat × Option (List Nat) :=
  if s.queues.length > 1 then
    (SharingMode.EXCLUSIVE, 0, Option.none)
  else
    (SharingMode.CONCURRENT, s.queues.length % 2 ^ 32, some s.queues)

/-- Embeds `MemoryRequirements` from `src/mem/memory_requirements.rs`, wrapping
the three `vk::MemoryRequirements` fields (`u64`, `u64`, `u32` in Rust). -/
structure MemoryRequirements where
  size : Nat
  alignment : Nat
  memory_type_bits : Nat
deriving DecidableEq, Repr

/-- Models Rust std's `u64::is_power_of_two` by its documented contract:
returns `true` iff the value equals `2 ^ k` for some `k`. Over the `u64`
range every power of two is `2 ^ k` with `k < 64`, so a bounded search is a
faithful executable rendering. -/
def u64_is_power_of_two (n : Nat) : Bool :=
  (List.range 64).any (fun k => n == 2 ^ k)

/-- Embeds `MemoryRequirements::align_to` (src/mem/memory_requirements.rs
lines 28-38): panics when `align` is not a power of two, otherwise returns new
requirements with the same size and memory type bits and the maximum of the two
alignments. `self` is taken by shared reference in the source and is never
mutated. -/
def MemoryRequirements.align_to (r : MemoryRequirements) (align : Nat) :
    PanicOr MemoryRequirements :=
  if !(u64_is_power_of_two align) then
    PanicOr.panic "alignment value must be a power of 2."
  else
    PanicOr.ok
      { size := r.size
        alignment := max r.alignment align
        memory_type_bits := r.memory_type_bits }

/-- Modelled from the spec: the closed enumeration of known instance
extensions (`src/instance/extension.rs` is not among the provided sources).
The members are the four extension families referenced by
`src/instance/mod.rs` (the `Extensions` fields `khr_surface`,
`khr_xcb_surface`, `khr_xlib_surface`, `khr_wayland_surface` and the
`Extension::Khr*` constructors used by the lazy table accessors). -/
inductive Extension where
  | KhrSurface
  | KhrXcbSurface
  | KhrXlibSurface
  | KhrWaylandSurface
deriving DecidableEq, Repr

/-- Modelled from the spec: the stable canonical name string of each known
extension ("fixed enumerations of known optional extensions ... each with a
stable canonical name string"), using the Vulkan registry names. -/
def Extension.c_name : Extension → String
  | Extension.KhrSurface => "VK_KHR_surface"
  | Extension.KhrXcbSurface => "VK_KHR_xcb_surface"
  | Extension.KhrXlibSurface => "VK_KHR_xlib_surface"
  | Extension.KhrWaylandSurface => "VK_KHR_wayland_surface"

/-- Modelled from the spec: `Extension::from_c_name`, mapping a raw driver
name to a known enumeration member, `none` for unknown names. -/
def Extension.from_c_name (name : String) : Option Extension :=
  if name = "VK_KHR_surface" then some Extension.KhrSurface
  else if name = "VK_KHR_xcb_surface" then some Extension.KhrXcbSurface
  else if name = "VK_KHR_xlib_surface" then some Extension.KhrXlibSurface
  else if name = "VK_KHR_wayland_surface" then some Extension.KhrWaylandSurface
  else Option.none

/-- Modelled from the spec: the `Extensions` capability set
(`src/instance/extension.rs`), a fixed bit-flag collection with one boolean
field per known extension, as used field-by-field in `src/instance/mod.rs`. -/
structure Extensions where
  khr_surface : Bool
  khr_xcb_surface : Bool
  khr_xlib_surface : Bool
  khr_wayland_surface : Bool
deriving DecidableEq, Repr

/-- Modelled from the spec: `Extensions::none()`, the empty capability set. -/
def Extensions.none : Extensions :=
  { khr_surface := false
    khr_xcb_surface := false
    khr_xlib_surface := false
    khr_wayland_surface := false }

/-- Modelled from the spec: `Extensions::contains`, an O(1) membership test on
the bit flags. -/
def Extensions.contains (s : Extensions) (e : Extension) : Bool :=
  match e with
  | Extension.KhrSurface => s.khr_surface
  | Extension.KhrXcbSurface => s.khr_xcb_surface
  | Extension.KhrXlibSurface => s.khr_xlib_surface
  | Extension.KhrWaylandSurface => s.khr_wayland_surface

/-- Modelled from the spec: `Extensions::insert`, setting the member's bit
flag (the Rust method mutates in place; the model returns the updated set). -/
def Extensions.insert (s : Extensions) (e : Extension) : Extensions :=
  match e with
  | Extension.KhrSurface => { s with khr_surface := true }
  | Extension.KhrXcbSurface => { s with khr_xcb_surface := true }
  | Extension.KhrXlibSurface => { s with khr_xlib_surface := true }
  | Extension.KhrWaylandSurface => { s with khr_wayland_surface := true }

/-- Modelled from the spec: the closed enumeration of known validation layers
(`src/instance/layer.rs` is not among the provided sources). The only member
referenced by `src/instance/mod.rs` is `ValidationLayer::KhronosValidation`. -/
inductive ValidationLayer where
  | KhronosValidation
deriving DecidableEq, Repr

/-- Modelled from the spec: the stable canonical name string of each known
validation layer, using the Vulkan registry name. -/
def ValidationLayer.c_name : ValidationLayer → String
  | ValidationLayer.KhronosValidation => "VK_LAYER_KHRONOS_validation"

/-- Modelled from the spec: `ValidationLayer::from_c_name`, mapping a raw
driver name to a known enumeration member, `none` for unknown names. -/
def ValidationLayer.from_c_name (name : String) : Option ValidationLayer :=
  if name = "VK_LAYER_KHRONOS_validation" then some ValidationLayer.KhronosValidation
  else Option.none

/-- Modelled from the spec: the `ValidationLayers` capability set
(`src/instance/layer.rs`), a fixed bit-flag collection with one boolean field
per known layer (`khronos_validation` is accessed directly in
`src/instance/mod.rs`). -/
structure ValidationLayers where
  khronos_validation : Bool
deriving DecidableEq, Repr

/-- Modelled from the spec: `ValidationLayers::none()`, the empty set. -/
def ValidationLayers.none : ValidationLayers :=
  { khronos_validation := false }

/-- Modelled from the spec: `ValidationLayers::contains`. -/
def ValidationLayers.contains (s : ValidationLayers) (l : ValidationLayer) : Bool :=
  match l with
  | ValidationLayer.KhronosValidation => s.khronos_validation

/-- Modelled from the spec: `ValidationLayers::insert`. -/
def ValidationLayers.insert (s : ValidationLayers) (l : ValidationLayer) : ValidationLayers :=
  match l with
  | ValidationLayer.KhronosValidation => { s with khronos_validation := true }

/-- Embeds the loop of `Entry::extensions` (src/lib.rs lines 84-101): walk the
raw names reported by the driver, insert each recognized one into the set, and
skip each unknown one with a warning. The accumulator pair carries the set
built so far and the names warned about so far. -/
def Extensions.from_names_loop (acc : Extensions) (warned : List String) :
    List String → Extensions × List String
  | [] => (acc, warned)
  | name :: rest =>
    match Extension.from_c_name name with
    | some ext => Extensions.from_names_loop (acc.insert ext) warned rest
    | Option.none => Extensions.from_names_loop acc (warned ++ [name]) rest

/-- Runs the `Entry::extensions` mapping pass on a full driver report: the
recognized set, and the unknown names skipped with a warning. -/
def Extensions.from_names (names : List String) : Extensions × List String :=
  Extensions.from_names_loop Extensions.none [] names

/-- Embeds the loop of `Entry::validation_layers` (src/lib.rs lines 63-80),
mapping raw driver layer names exactly as `Extensions.from_names_loop` does
for extension names. -/
def ValidationLayers.from_names_loop (acc : ValidationLayers) (warned : List String) :
    List String → ValidationLayers × List String
  | [] => (acc, warned)
  | name :: rest =>
    match ValidationLayer.from_c_name name with
    | some layer => ValidationLayers.from_names_loop (acc.insert layer) warned rest
    | Option.none => ValidationLayers.from_names_loop acc (warned ++ [name]) rest

/-- Runs the `Entry::validation_layers` mapping pass on a full driver report. -/
def ValidationLayers.from_names (names : List String) : ValidationLayers × List String :=
  ValidationLayers.from_names_loop ValidationLayers.none [] names

/-- Embeds `Entry` (src/lib.rs lines 47-51). The `ash::Entry` handle is
modelled by the two raw capability-name lists the native loader reports
(behind `enumerate_instance_extension_properties` and
`enumerate_instance_layer_properties`); the two `OnceCell` caches are modelled
as `Option` fields, empty in a fresh entry (`Entry::new`). -/
structure Entry where
  instance_extension_names : List String
  instance_layer_names : List String
  extensions_cell : Option Extensions
  layers_cell : Option ValidationLayers
deriving DecidableEq, Repr

/-- Embeds `Entry::new` (src/lib.rs lines 54-60): both caches start empty. -/
def Entry.new (ext_names layer_names : List String) : Entry :=
  { instance_extension_names := ext_names
    instance_layer_names := layer_names
    extensions_cell := Option.none
    layers_cell := Option.none }

/-- Embeds `Entry::extensions` (src/lib.rs lines 83-102):
`OnceCell::get_or_init` returns the cached set when present, and otherwise
performs the driver enumeration plus mapping pass and stores the result.
Returns the set, the entry's new state, and whether the underlying driver
query was performed by this call. -/
def Entry.extensions (e : Entry) : Extensions × Entry × Bool :=
  match e.extensions_cell with
  | some v => (v, e, false)
  | Option.none =>
    let v := (Extensions.from_names e.instance_extension_names).1
    (v, { e with extensions_cell := some v }, true)

/-- Embeds `Entry::validation_layers` (src/lib.rs lines 62-81), with the same
`get_or_init` state convention as `Entry.extensions`. -/
def Entry.validation_layers (e : Entry) : ValidationLayers × Entry × Bool :=
  match e.layers_cell with
  | some v => (v, e, false)
  | Option.none =>
    let v := (ValidationLayers.from_names e.instance_layer_names).1
    (v, { e with layers_cell := some v }, true)

/-- Vulkan result codes (`vk::Result`) matched by the error conversions in
src/lib.rs and src/instance/mod.rs; `OTHER` stands for every remaining code. -/
inductive VkResult where
  | ERROR_OUT_OF_HOST_MEMORY
  | ERROR_OUT_OF_DEVICE_MEMORY
  | ERROR_INITIALIZATION_FAILED
  | ERROR_LAYER_NOT_PRESENT
  | ERROR_EXTENSION_NOT_PRESENT
  | ERROR_INCOMPATIBLE_DRIVER
  | OTHER (code : Int)
deriving DecidableEq, Repr

/-- Embeds `OomError` (src/lib.rs lines 107-113). -/
inductive OomError where
  | Host
  | Device
deriving DecidableEq, Repr

/-- Embeds `CreationError` (src/instance/mod.rs lines 31-38). -/
inductive CreationError where
  | LoadError (v : List String)
  | OutOfMemory (e : OomError)
  | InitializationFailed
  | MissingValidationLayer (l : ValidationLayer)
  | MissingExtension (e : Extension)
  | IncompatibleDriver
deriving DecidableEq, Repr

/-- Embeds `ash::InstanceError`: the native `create_instance` either fails to
load symbols or returns a Vulkan error code. -/
inductive InstanceError where
  | LoadError (v : List String)
  | VkError (r : VkResult)
deriving DecidableEq, Repr

/-- Embeds `impl From<vk::Result> for CreationError` (src/instance/mod.rs
lines 49-61). The `ERROR_LAYER_NOT_PRESENT` and `ERROR_EXTENSION_NOT_PRESENT`
arms invoke the `panic!` macro, and the catch-all arm invokes `unreachable!`;
all three are modelled as `PanicOr.panic` with the corresponding message. -/
def CreationError.from_vk : VkResult → PanicOr CreationError
  | VkResult.ERROR_OUT_OF_HOST_MEMORY => PanicOr.ok (CreationError.OutOfMemory OomError.Host)
  | VkResult.ERROR_OUT_OF_DEVICE_MEMORY => PanicOr.ok (CreationError.OutOfMemory OomError.Device)
  | VkResult.ERROR_INITIALIZATION_FAILED => PanicOr.ok CreationError.InitializationFailed
  | VkResult.ERROR_LAYER_NOT_PRESENT => PanicOr.panic "unchecked missing layer"
  | VkResult.ERROR_EXTENSION_NOT_PRESENT => PanicOr.panic "unchecked missing extension"
  | VkResult.ERROR_INCOMPATIBLE_DRIVER => PanicOr.ok CreationError.IncompatibleDriver
  | VkResult.OTHER _ => PanicOr.panic "internal error: entered unreachable code"

/-- Embeds `impl From<ash::InstanceError> for CreationError`
(src/instance/mod.rs lines 40-47). -/
def CreationError.from_instance_error : InstanceError → PanicOr CreationError
  | InstanceError.LoadError v => PanicOr.ok (CreationError.LoadError v)
  | InstanceError.VkError r => CreationError.from_vk r

/-- Raw per-adapter data the native driver reports for one physical device:
its handle and the results of the four property queries made in
`with_validation_layers` (the property blocks are opaque snapshots here, the
queue family list keeps its length and order). -/
structure PhysicalDeviceRaw where
  handle : Nat
  properties : Nat
  features : Nat
  memory_properties : Nat
  queue_family_properties : List Nat
deriving DecidableEq, Repr

/-- Embeds `PhysicalDeviceInfo` (src/instance/mod.rs lines 247-253). -/
structure PhysicalDeviceInfo where
  handle : Nat
  properties : Nat
  supported_features : Nat
  memory_properties : Nat
  queue_family_properties : List Nat
deriving DecidableEq, Repr

/-- Embeds the per-adapter capture closure of `with_validation_layers`
(src/instance/mod.rs lines 139-152); the `.into()` feature translation is the
identity on the opaque feature snapshot. -/
def PhysicalDeviceInfo.capture (raw : PhysicalDeviceRaw) : PhysicalDeviceInfo :=
  { handle := raw.handle
    properties := raw.properties
    supported_features := raw.features
    memory_properties := raw.memory_properties
    queue_family_properties := raw.queue_family_properties }

/-- A resolved extension function table (`ash::extensions::khr::Surface` and
friends): `*::new(&entry.handle, &self.handle)` loads the family's entry
points for one instance handle, so the table is determined by the extension
family and the instance handle it was resolved against. -/
structure ExtTable where
  ext : Extension
  instance_handle : Nat
deriving DecidableEq, Repr

/-- Embeds `MissingExtensionError` (src/instance/mod.rs line 64). -/
structure MissingExtensionError where
  ext : Extension
deriving DecidableEq, Repr

/-- Embeds `Instance` (src/instance/mod.rs lines 66-75). The native
`ash::Instance` handle is a number; the four `OnceCell` table slots are
`Option` fields (named with a `_cell` suffix to leave the Rust method names to
the accessor functions). -/
structure Instance where
  entry : Entry
  handle : Nat
  loaded_extensions : Extensions
  physical_devices_info : List PhysicalDeviceInfo
  ext_khr_surface_cell : Option ExtTable
  ext_khr_xcb_surface_cell : Option ExtTable
  ext_khr_xlib_surface_cell : Option ExtTable
  ext_khr_wayland_surface_cell : Option ExtTable
deriving DecidableEq, Repr

/-- Embeds the required-extension loop of `with_validation_layers`
(src/instance/mod.rs lines 89-98): each requested extension must be in the
available set or the whole creation returns `MissingExtension` at once;
otherwise it is inserted into `loaded_extensions` and its C name is pushed
onto `extension_names`. -/
def load_required_extensions (available_extensions : Extensions)
    (loaded : Extensions) (names : List String) :
    List Extension → Except Extension (Extensions × List String)
  | [] => Except.ok (loaded, names)
  | ext :: rest =>
    if !available_extensions.contains ext then
      Except.error ext
    else
      load_required_extensions available_extensions
        (loaded.insert ext) (names ++ [ext.c_name]) rest

/-- Embeds the requested-layer loop of `with_validation_layers`
(src/instance/mod.rs lines 114-121), starting from the `enabled_layers` set
and `layer_names` vec left by the debug block. -/
def load_requested_layers (available_layers : ValidationLayers)
    (enabled : ValidationLayers) (names : List String) :
    List ValidationLayer → Except ValidationLayer (ValidationLayers × List String)
  | [] => Except.ok (enabled, names)
  | layer :: rest =>
    if !available_layers.contains layer then
      Except.error layer
    else
      load_requested_layers available_layers
        (enabled.insert layer) (names ++ [layer.c_name]) rest

/-- Observable outcome of `Instance.with_validation_layers`: the returned
value (possibly a panic), the entry's state after the call (its capability
caches may have been filled by step 1), and the extension/layer name lists
passed to the native `create_instance` call when it was reached — `none`
records that negotiation failed before any native context creation was
attempted. -/
structure CreateOutcome where
  result : PanicOr (Except CreationError Instance)
  entry : Entry
  create_call : Option (List String × List String)

/-- Embeds `Instance::with_validation_layers` (src/instance/mod.rs lines
84-167). The native boundary is explicit: `create_instance` models
`ash::Entry::create_instance` (from the enabled extension and layer name
lists to a handle or an error) and `enumerate_physical_devices` models the
adapter enumeration plus per-adapter property queries on a created handle.
The `#[cfg(debug_assertions)]` block is controlled by the `debug_assertions`
flag. -/
def Instance.with_validation_layers
    (entry : Entry)
    (create_instance : List String → List String → Except InstanceError Nat)
    (enumerate_physical_devices : Nat → List PhysicalDeviceRaw)
    (required_extensions : List Extension)
    (validation_layers : List ValidationLayer)
    (debug_assertions : Bool) : CreateOutcome :=
  let (available_extensions, entry, _) := entry.extensions
  let (available_layers, entry, _) := entry.validation_layers
  match load_required_extensions available_extensions Extensions.none [] required_extensions with
  | Except.error ext =>
    { result := PanicOr.ok (Except.error (CreationError.MissingExtension ext))
      entry := entry
      create_call := Option.none }
  | Except.ok (loaded_extensions, extension_names) =>
    let (debug_layers, debug_layer_names) :=
      if debug_assertions then
        if available_layers.contains ValidationLayer.KhronosValidation then
          ({ ValidationLayers.none with khronos_validation := true },
            [ValidationLayer.KhronosValidation.c_name])
        else (ValidationLayers.none, ([] : List String))
      else (ValidationLayers.none, ([] : List String))
    match load_requested_layers available_layers debug_layers debug_layer_names validation_layers with
    | Except.error layer =>
      { result := PanicOr.ok (Except.error (CreationError.MissingValidationLayer layer))
        entry := entry
        create_call := Option.none }
    | Except.ok (_enabled_layers, layer_names) =>
      match create_instance extension_names layer_names with
      | Except.error err =>
        { result :=
            match CreationError.from_instance_error err with
            | PanicOr.panic msg => PanicOr.panic msg
            | PanicOr.ok ce => PanicOr.ok (Except.error ce)
          entry := entry
          create_call := some (extension_names, layer_names) }
      | Except.ok handle =>
        let physical_devices_info :=
          (enumerate_physical_devices handle).map PhysicalDeviceInfo.capture
        { result := PanicOr.ok (Except.ok
            { entry := entry
              handle := handle
              loaded_extensions := loaded_extensions
              physical_devices_info := physical_devices_info
              ext_khr_surface_cell := Option.none
              ext_khr_xcb_surface_cell := Option.none
              ext_khr_xlib_surface_cell := Option.none
              ext_khr_wayland_surface_cell := Option.none })
          entry := entry
          create_call := some (extension_names, layer_names) }

/-- Modelled from the spec: `PhysicalDevice` (src/instance/physical_device.rs
is not among the provided sources). An adapter view is a (context, index)
pair — "a lightweight, non-owning reference = (Context reference, adapter
index)"; the context reference is carried implicitly (view accessors take the
`Instance`), so the view itself is the `u32` index, as constructed by
`PhysicalDevice::new(self, i)` in src/instance/mod.rs. -/
structure PhysicalDevice where
  index : Nat
deriving DecidableEq, Repr

/-- Embeds `Instance::physical_devices` (src/instance/mod.rs lines 176-181):
a view per index in `0..len` where `len = physical_devices_info.len() as u32`
(the cast is modelled by `% 2 ^ 32`). A pure read of the cache: the driver is
not an input. -/
def Instance.physical_devices (i : Instance) : List PhysicalDevice :=
  (List.range (i.physical_devices_info.length % 2 ^ 32)).map (fun k => { index := k })

/-- Embeds `Instance::physical_device` (src/instance/mod.rs lines 185-191):
`some` view exactly when the index is below the cache length. A pure read of
the cache: the driver is not an input. -/
def Instance.physical_device (i : Instance) (index : Nat) : Option PhysicalDevice :=
  if index < i.physical_devices_info.length then
    some { index := index }
  else
    Option.none

/-- Modelled from the spec: the snapshot data underlying an adapter view
("read-only accessors mirroring AdapterSnapshot fields"), i.e. the cache entry
the view's index denotes. -/
def PhysicalDevice.info (i : Instance) (pd : PhysicalDevice) : Option PhysicalDeviceInfo :=
  i.physical_devices_info[pd.index]?

/-- Embeds `Instance::ext_khr_surface` (src/instance/mod.rs lines 198-206):
`OnceCell::get_or_try_init` returns the cached table when the slot is filled;
otherwise the closure resolves `ash::extensions::khr::Surface::new` only when
`khr_surface` is among the loaded extensions, and a `MissingExtensionError` is
not cached. Returns the result, the instance's new state, and whether a table
resolution against the driver was performed by this call. -/
def Instance.ext_khr_surface (i : Instance) :
    Except MissingExtensionError ExtTable × Instance × Bool :=
  match i.ext_khr_surface_cell with
  | some t => (Except.ok t, i, false)
  | Option.none =>
    if i.loaded_extensions.khr_surface then
      let t : ExtTable := { ext := Extension.KhrSurface, instance_handle := i.handle }
      (Except.ok t, { i with ext_khr_surface_cell := some t }, true)
    else
      (Except.error { ext := Extension.KhrSurface }, i, false)

/-- Embeds `Instance::ext_khr_xcb_surface` (src/instance/mod.rs lines
208-216), with the same conventions as `Instance.ext_khr_surface`. -/
def Instance.ext_khr_xcb_surface (i : Instance) :
    Except MissingExtensionError ExtTable × Instance × Bool :=
  match i.ext_khr_xcb_surface_cell with
  | some t => (Except.ok t, i, false)
  | Option.none =>
    if i.loaded_extensions.khr_xcb_surface then
      let t : ExtTable := { ext := Extension.KhrXcbSurface, instance_handle := i.handle }
      (Except.ok t, { i with ext_khr_xcb_surface_cell := some t }, true)
    else
      (Except.error { ext := Extension.KhrXcbSurface }, i, false)

/-- Embeds `Instance::ext_khr_xlib_surface` (src/instance/mod.rs lines
218-226), with the same conventions as `Instance.ext_khr_surface`. -/
def Instance.ext_khr_xlib_surface (i : Instance) :
    Except MissingExtensionError ExtTable × Instance × Bool :=
  match i.ext_khr_xlib_surface_cell with
  | some t => (Except.ok t, i, false)
  | Option.none =>
    if i.loaded_extensions.khr_xlib_surface then
      let t : ExtTable := { ext := Extension.KhrXlibSurface, instance_handle := i.handle }
      (Except.ok t, { i with ext_khr_xlib_surface_cell := some t }, true)
    else
      (Except.error { ext := Extension.KhrXlibSurface }, i, false)

/-- Embeds `Instance::ext_khr_wayland_surface` (src/instance/mod.rs lines
228-236), with the same conventions as `Instance.ext_khr_surface`. -/
def Instance.ext_khr_wayland_surface (i : Instance) :
    Except MissingExtensionError ExtTable × Instance × Bool :=
  match i.ext_khr_wayland_surface_cell with
  | some t => (Except.ok t, i, false)
  | Option.none =>
    if i.loaded_extensions.khr_wayland_surface then
      let t : ExtTable := { ext := Extension.KhrWaylandSurface, instance_handle := i.handle }
      (Except.ok t, { i with ext_khr_wayland_surface_cell := some t }, true)
    else
      (Except.error { ext := Extension.KhrWaylandSurface }, i, false)

/-- Dispatches the four per-extension accessors of src/instance/mod.rs by
extension family, to state properties uniformly over every supported family. -/
def Instance.ext_table (i : Instance) :
    Extension → Except MissingExtensionError ExtTable × Instance × Bool
  | Extension.KhrSurface => i.ext_khr_surface
  | Extension.KhrXcbSurface => i.ext_khr_xcb_surface
  | Extension.KhrXlibSurface => i.ext_khr_xlib_surface
  | Extension.KhrWaylandSurface => i.ext_khr_wayland_surface

/-- The `OnceCell` slot of a given extension family. -/
def Instance.ext_cell (i : Instance) : Extension → Option ExtTable
  | Extension.KhrSurface => i.ext_khr_surface_cell
  | Extension.KhrXcbSurface => i.ext_khr_xcb_surface_cell
  | Extension.KhrXlibSurface => i.ext_khr_xlib_surface_cell
  | Extension.KhrWaylandSurface => i.ext_khr_wayland_surface_cell

/-- Cell invariant maintained by every `Instance`: a filled table slot holds
the table of its own family resolved against this instance's handle, and only
for a loaded extension. Freshly created instances have all slots empty. -/
def Instance.cells_wf (i : Instance) : Prop :=
  ∀ x : Extension, ∀ t ∈ i.ext_cell x,
    i.loaded_extensions.contains x = true ∧ t = { ext := x, instance_handle := i.handle }

/-- Reachable entry states: each `OnceCell` cache is empty or holds exactly
the set parsed from the driver's reported names. `Entry::new` establishes it
and both queries preserve it, so every entry obtained through the public API
satisfies it. -/
def Entry.cells_wf (e : Entry) : Prop :=
  (e.extensions_cell = Option.none
    ∨ e.extensions_cell = some (Extensions.from_names e.instance_extension_names).1)
  ∧ (e.layers_cell = Option.none
    ∨ e.layers_cell = some (ValidationLayers.from_names e.instance_layer_names).1)

/-- Correctness of the `u64::is_power_of_two` model over the `u64` range. -/
theorem u64_is_power_of_two_iff {n : Nat} (hn : n < 2 ^ 64) :
    u64_is_power_of_two n = true ↔ ∃ k, n = 2 ^ k := by
  unfold u64_is_power_of_two
  rw [List.any_eq_true]
  constructor
  · rintro ⟨k, _, hk⟩
    exact ⟨k, by simpa using hk⟩
  · rintro ⟨k, rfl⟩
    refine ⟨k, List.mem_range.mpr ?_, by simp⟩
    by_contra h
    exact absurd hn (not_lt.mpr (Nat.pow_le_pow_right (by norm_num) (not_lt.mp h)))

/-- C3: the claim says `as_vulkan` returns the CONCURRENT sharing mode with
the queue count and queue-index list when the set holds more than one queue,
and EXCLUSIVE when it holds at most one. Evaluating the code at a two-queue
set and at a one-queue set shows the branches are the other way around: two
queues yield `(EXCLUSIVE, 0, null)` and one queue yields
`(CONCURRENT, 1, ptr)` — the mapping in the source is inverted relative to
its own naming convention (src/sync/sharing_mode.rs lines 15-21). -/
theorem C3_as_vulkan_eval :
    (SharingQueues.mk 0 [0, 1]).as_vulkan = (SharingMode.EXCLUSIVE, 0, Option.none)
    ∧ (SharingQueues.mk 0 [3]).as_vulkan = (SharingMode.CONCURRENT, 1, some [3]) := by
  exact ⟨rfl, rfl⟩

/-- C10: for every requirements value and every `align` in the u64 range,
`align_to` returns requirements with the size and memory type bits unchanged
and the alignment equal to the maximum of the old alignment and `align` when
`align` is a power of two, and panics (returning no value, leaving the
read-only receiver untouched) when it is not. -/
theorem C10_align_to_spec (r : MemoryRequirements) (align : Nat)
    (halign : align < 2 ^ 64) :
    ((∃ k, align = 2 ^ k) →
      r.align_to align =
        PanicOr.ok
          { size := r.size
            alignment := max r.alignment align
            memory_type_bits := r.memory_type_bits })
    ∧ (¬ (∃ k, align = 2 ^ k) →
      r.align_to align = PanicOr.panic "alignment value must be a power of 2.") := by
  constructor
  · intro h
    have hb : u64_is_power_of_two align = true := (u64_is_power_of_two_iff halign).mpr h
    simp [MemoryRequirements.align_to, hb]
  · intro h
    have hb : u64_is_power_of_two align = false := by
      cases hb : u64_is_power_of_two align with
      | false => rfl
      | true => exact absurd ((u64_is_power_of_two_iff halign).mp hb) h
    simp [MemoryRequirements.align_to, hb]

/-- Witness for C10 at a concrete input: aligning `(size 256, alignment 16,
bits 5)` to 64 succeeds with alignment `max 16 64`. -/
theorem C10_align_to_spec_witness :
    (MemoryRequirements.mk 256 16 5).align_to 64 =
      PanicOr.ok (MemoryRequirements.mk 256 (max 16 64) 5) :=
  (C10_align_to_spec (MemoryRequirements.mk 256 16 5) 64 (by norm_num)).1 ⟨6, rfl⟩

/-- C5: both availability queries are idempotent and memoized. For every
entry state: calling `Entry.extensions` again after one call returns the same
set, leaves the entry unchanged, and performs no driver query, and the first
call performs the driver query exactly when the cache was still empty — so
over any number of calls only the first touches the driver and all return the
same cached set. The same holds for `Entry.validation_layers`. -/
theorem C5_entry_queries_memoized (e : Entry) :
    ((e.extensions.2.1).extensions.1 = e.extensions.1
      ∧ (e.extensions.2.1).extensions.2.1 = e.extensions.2.1
      ∧ (e.extensions.2.1).extensions.2.2 = false
      ∧ (e.extensions.2.2 = true ↔ e.extensions_cell = Option.none))
    ∧ ((e.validation_layers.2.1).validation_layers.1 = e.validation_layers.1
      ∧ (e.validation_layers.2.1).validation_layers.2.1 = e.validation_layers.2.1
      ∧ (e.validation_layers.2.1).validation_layers.2.2 = false
      ∧ (e.validation_layers.2.2 = true ↔ e.layers_cell = Option.none)) := by
  constructor
  · cases h : e.extensions_cell <;> simp [Entry.extensions, h]
  · cases h : e.layers_cell <;> simp [Entry.validation_layers, h]

/-- Inserting an extension makes the set contain it and nothing else new. -/
theorem ext_set_contains_insert (s : Extensions) (e x : Extension) :
    (s.insert e).contains x = (s.contains x || e == x) := by
  cases e <;> cases x <;> simp [Extensions.insert, Extensions.contains]

/-- Inserting a layer makes the set contain it and nothing else new. -/
theorem layer_set_contains_insert (s : ValidationLayers) (l x : ValidationLayer) :
    (s.insert l).contains x = (s.contains x || l == x) := by
  cases l
  cases x
  simp [ValidationLayers.insert, ValidationLayers.contains]

/-- Membership in the set built by the `Entry::extensions` loop. -/
theorem ext_from_names_loop_contains (names : List String)
    (acc : Extensions) (warned : List String) (x : Extension) :
    (Extensions.from_names_loop acc warned names).1.contains x =
      (acc.contains x || names.any (fun n => Extension.from_c_name n == some x)) := by
  induction names generalizing acc warned with
  | nil => simp [Extensions.from_names_loop]
  | cons n rest ih =>
    cases h : Extension.from_c_name n with
    | none => simp [Extensions.from_names_loop, h, ih]
    | some e =>
      simp [Extensions.from_names_loop, h, ih, ext_set_contains_insert,
        Bool.or_assoc, Bool.or_comm, Bool.or_left_comm]

/-- Warned names of the `Entry::extensions` loop: exactly the unrecognized
reported names, appended in report order. -/
theorem ext_from_names_loop_warned (names : List String)
    (acc : Extensions) (warned : List String) :
    (Extensions.from_names_loop acc warned names).2 =
      warned ++ names.filter (fun n => (Extension.from_c_name n).isNone) := by
  induction names generalizing acc warned with
  | nil => simp [Extensions.from_names_loop]
  | cons n rest ih =>
    cases h : Extension.from_c_name n with
    | none => simp [Extensions.from_names_loop, h, ih]
    | some e => simp [Extensions.from_names_loop, h, ih]

/-- Membership in the set built by the `Entry::validation_layers` loop. -/
theorem layer_from_names_loop_contains (names : List String)
    (acc : ValidationLayers) (warned : List String) (x : ValidationLayer) :
    (ValidationLayers.from_names_loop acc warned names).1.contains x =
      (acc.contains x || names.any (fun n => ValidationLayer.from_c_name n == some x)) := by
  induction names generalizing acc warned with
  | nil => simp [ValidationLayers.from_names_loop]
  | cons n rest ih =>
    cases h : ValidationLayer.from_c_name n with
    | none => simp [ValidationLayers.from_names_loop, h, ih]
    | some l =>
      simp [ValidationLayers.from_names_loop, h, ih, layer_set_contains_insert,
        Bool.or_assoc, Bool.or_comm, Bool.or_left_comm]

/-- Warned names of the `Entry::validation_layers` loop. -/
theorem layer_from_names_loop_warned (names : List String)
    (acc : ValidationLayers) (warned : List String) :
    (ValidationLayers.from_names_loop acc warned names).2 =
      warned ++ names.filter (fun n => (ValidationLayer.from_c_name n).isNone) := by
  induction names generalizing acc warned with
  | nil => simp [ValidationLayers.from_names_loop]
  | cons n rest ih =>
    cases h : ValidationLayer.from_c_name n with
    | none => simp [ValidationLayers.from_names_loop, h, ih]
    | some l => simp [ValidationLayers.from_names_loop, h, ih]

/-- Name mapping inverts the canonical extension name, and nothing else. -/
theorem ext_from_c_name_eq_some (n : String) (x : Extension) :
    Extension.from_c_name n = some x ↔ n = x.c_name := by
  cases x <;> simp [Extension.from_c_name, Extension.c_name] <;>
    split_ifs <;> simp_all

/-- Name mapping inverts the canonical layer name, and nothing else. -/
theorem layer_from_c_name_eq_some (n : String) (x : ValidationLayer) :
    ValidationLayer.from_c_name n = some x ↔ n = x.c_name := by
  cases x
  simp [ValidationLayer.from_c_name, ValidationLayer.c_name]

/-- C7: unknown capability names are never errors. For every list of raw
names reported by the driver, the mapping pass of `Entry::extensions` /
`Entry::validation_layers` is total (it always returns a set — the query
succeeds), the returned set contains exactly the members whose canonical name
was reported, and the skipped-with-a-warning names are exactly the
unrecognized ones, in report order. -/
theorem C7_unknown_names_skipped (names : List String) :
    (∀ x : Extension,
      (Extensions.from_names names).1.contains x = true ↔ x.c_name ∈ names)
    ∧ (Extensions.from_names names).2 =
        names.filter (fun n => (Extension.from_c_name n).isNone)
    ∧ (∀ x : ValidationLayer,
      (ValidationLayers.from_names names).1.contains x = true ↔ x.c_name ∈ names)
    ∧ (ValidationLayers.from_names names).2 =
        names.filter (fun n => (ValidationLayer.from_c_name n).isNone) := by
  refine ⟨fun x => ?_, ?_, fun x => ?_, ?_⟩
  · rw [Extensions.from_names, ext_from_names_loop_contains]
    simp [Extensions.none, Extensions.contains, List.any_eq_true,
      ext_from_c_name_eq_some]
    cases x <;> simp [Extensions.contains, Extensions.none]
  · rw [Extensions.from_names, ext_from_names_loop_warned]
    simp
  · rw [ValidationLayers.from_names, layer_from_names_loop_contains]
    simp [ValidationLayers.none, ValidationLayers.contains, List.any_eq_true,
      layer_from_c_name_eq_some]
  · rw [ValidationLayers.from_names, layer_from_names_loop_warned]
    simp

/-- Inversion of a successful extension loop: the loaded set is the fold of
the requests over the accumulator, the name list gets one C name per request
in request order, and every request was available. -/
theorem load_required_extensions_ok_inv (a : Extensions) (l : Extensions)
    (ns : List String) (req : List Extension) (p : Extensions × List String)
    (h : load_required_extensions a l ns req = Except.ok p) :
    p.1 = req.foldl Extensions.insert l
    ∧ p.2 = ns ++ req.map Extension.c_name
    ∧ ∀ e ∈ req, a.contains e = true := by
  induction req generalizing l ns with
  | nil =>
    simp [load_required_extensions] at h
    simp [← h]
  | cons e rest ih =>
    cases ha : a.contains e with
    | false => simp [load_required_extensions, ha] at h
    | true =>
      simp only [load_required_extensions, ha, Bool.not_true,
        Bool.false_eq_true, if_false] at h
      obtain ⟨h1, h2, h3⟩ := ih (l.insert e) (ns ++ [e.c_name]) h
      refine ⟨by simpa using h1, by simpa using h2, ?_⟩
      intro x hx
      rcases List.mem_cons.mp hx with rfl | hx
      · exact ha
      · exact h3 x hx

/-- Inversion of a failed extension loop: the reported extension was
requested and unavailable. -/
theorem load_required_extensions_error_inv (a : Extensions) (l : Extensions)
    (ns : List String) (req : List Extension) (e : Extension)
    (h : load_required_extensions a l ns req = Except.error e) :
    e ∈ req ∧ a.contains e = false := by
  induction req generalizing l ns with
  | nil => simp [load_required_extensions] at h
  | cons x rest ih =>
    cases ha : a.contains x with
    | false =>
      simp [load_required_extensions, ha] at h
      exact ⟨by simp [h], by simpa [h] using ha⟩
    | true =>
      simp only [load_required_extensions, ha, Bool.not_true,
        Bool.false_eq_true, if_false] at h
      obtain ⟨h1, h2⟩ := ih (l.insert x) (ns ++ [x.c_name]) h
      exact ⟨List.mem_cons_of_mem x h1, h2⟩

/-- A request containing an unavailable extension makes the loop fail. -/
theorem load_required_extensions_error_of_missing (a : Extensions) (l : Extensions)
    (ns : List String) (req : List Extension)
    (h : ∃ e ∈ req, a.contains e = false) :
    ∃ e, load_required_extensions a l ns req = Except.error e := by
  induction req generalizing l ns with
  | nil => simp at h
  | cons x rest ih =>
    cases ha : a.contains x with
    | false => exact ⟨x, by simp [load_required_extensions, ha]⟩
    | true =>
      obtain ⟨e, he, hm⟩ := h
      rcases List.mem_cons.mp he with rfl | he
      · rw [ha] at hm; cases hm
      · obtain ⟨e₀, he₀⟩ := ih (l.insert x) (ns ++ [x.c_name]) ⟨e, he, hm⟩
        exact ⟨e₀, by simp [load_required_extensions, ha, he₀]⟩

/-- Inversion of a successful layer loop, as for extensions. -/
theorem load_requested_layers_ok_inv (a : ValidationLayers) (l : ValidationLayers)
    (ns : List String) (req : List ValidationLayer) (p : ValidationLayers × List String)
    (h : load_requested_layers a l ns req = Except.ok p) :
    p.1 = req.foldl ValidationLayers.insert l
    ∧ p.2 = ns ++ req.map ValidationLayer.c_name
    ∧ ∀ x ∈ req, a.contains x = true := by
  induction req generalizing l ns with
  | nil =>
    simp [load_requested_layers] at h
    simp [← h]
  | cons x rest ih =>
    cases ha : a.contains x with
    | false => simp [load_requested_layers, ha] at h
    | true =>
      simp only [load_requested_layers, ha, Bool.not_true,
        Bool.false_eq_true, if_false] at h
      obtain ⟨h1, h2, h3⟩ := ih (l.insert x) (ns ++ [x.c_name]) h
      refine ⟨by simpa using h1, by simpa using h2, ?_⟩
      intro y hy
      rcases List.mem_cons.mp hy with rfl | hy
      · exact ha
      · exact h3 y hy

/-- Inversion of a failed layer loop, as for extensions. -/
theorem load_requested_layers_error_inv (a : ValidationLayers) (l : ValidationLayers)
    (ns : List String) (req : List ValidationLayer) (x : ValidationLayer)
    (h : load_requested_layers a l ns req = Except.error x) :
    x ∈ req ∧ a.contains x = false := by
  cases x
  induction req generalizing l ns with
  | nil => simp [load_requested_layers] at h
  | cons y rest ih =>
    cases y
    cases ha : a.contains ValidationLayer.KhronosValidation with
    | false => simp [ha]
    | true =>
      simp only [load_requested_layers, ha, Bool.not_true,
        Bool.false_eq_true, if_false] at h
      obtain ⟨h1, h2⟩ := ih (l.insert ValidationLayer.KhronosValidation)
        (ns ++ [ValidationLayer.KhronosValidation.c_name]) h
      rw [ha] at h2
      simp at h2

/-- A request containing an unavailable layer makes the loop fail. -/
theorem load_requested_layers_error_of_missing (a : ValidationLayers) (l : ValidationLayers)
    (ns : List String) (req : List ValidationLayer)
    (h : ∃ x ∈ req, a.contains x = false) :
    ∃ x, load_requested_layers a l ns req = Except.error x := by
  induction req generalizing l ns with
  | nil => simp at h
  | cons y rest ih =>
    cases ha : a.contains y with
    | false => exact ⟨y, by simp [load_requested_layers, ha]⟩
    | true =>
      obtain ⟨x, hx, hm⟩ := h
      rcases List.mem_cons.mp hx with rfl | hx
      · rw [ha] at hm; cases hm
      · obtain ⟨x₀, hx₀⟩ := ih (l.insert y) (ns ++ [y.c_name]) ⟨x, hx, hm⟩
        exact ⟨x₀, by simp [load_requested_layers, ha, hx₀]⟩

/-- Under `Entry.cells_wf`, the two availability sets consumed by
`with_validation_layers` are the parses of the driver's reported names. -/
theorem Entry.wf_avail (e : Entry) (h : e.cells_wf) :
    e.extensions.1 = (Extensions.from_names e.instance_extension_names).1
    ∧ (e.extensions.2.1).validation_layers.1 =
        (ValidationLayers.from_names e.instance_layer_names).1 := by
  obtain ⟨h1, h2⟩ := h
  rcases h1 with h1 | h1 <;> rcases h2 with h2 | h2 <;>
    simp [Entry.extensions, Entry.validation_layers, h1, h2]

/-- C1: negotiation is all-or-nothing and side-effect free on failure. If
some requested extension is absent from the loader's available extensions,
creation returns `MissingExtension` naming such an extension; if every
requested extension is available but some explicitly requested validation
layer is absent from the available layers, it returns
`MissingValidationLayer` naming such a layer; in either case `create_call`
is `none` — the native `create_instance` is never invoked, so no native
context is created. -/
theorem C1_negotiation_all_or_nothing
    (entry : Entry)
    (ci : List String → List String → Except InstanceError Nat)
    (en : Nat → List PhysicalDeviceRaw)
    (req : List Extension) (lay : List ValidationLayer) (dbg : Bool) :
    ((∃ e ∈ req, (entry.extensions.1).contains e = false) →
      ∃ e, e ∈ req ∧ (entry.extensions.1).contains e = false
        ∧ (Instance.with_validation_layers entry ci en req lay dbg).result
            = PanicOr.ok (Except.error (CreationError.MissingExtension e))
        ∧ (Instance.with_validation_layers entry ci en req lay dbg).create_call
            = Option.none)
    ∧ ((∀ e ∈ req, (entry.extensions.1).contains e = true) →
      (∃ x ∈ lay, ((entry.extensions.2.1).validation_layers.1).contains x = false) →
      ∃ x, x ∈ lay ∧ ((entry.extensions.2.1).validation_layers.1).contains x = false
        ∧ (Instance.with_validation_layers entry ci en req lay dbg).result
            = PanicOr.ok (Except.error (CreationError.MissingValidationLayer x))
        ∧ (Instance.with_validation_layers entry ci en req lay dbg).create_call
            = Option.none) := by
  rcases hE : entry.extensions with ⟨A, e1, q1⟩
  rcases hL : e1.validation_layers with ⟨L, e2, q2⟩
  constructor
  · intro hmiss
    simp only [hE] at hmiss
    obtain ⟨e0, herr⟩ :=
      load_required_extensions_error_of_missing A Extensions.none [] req hmiss
    obtain ⟨hmem, hcon⟩ := load_required_extensions_error_inv _ _ _ _ _ herr
    refine ⟨e0, hmem, by simp [hE, hcon], ?_, ?_⟩ <;>
      simp [Instance.with_validation_layers, hE, hL, herr]
  · intro hall hlaymiss
    simp only [hE] at hall
    simp only [hE, hL] at hlaymiss
    cases hload : load_required_extensions A Extensions.none [] req with
    | error e0 =>
      obtain ⟨hmem, hcon⟩ := load_required_extensions_error_inv _ _ _ _ _ hload
      rw [hall e0 hmem] at hcon
      cases hcon
    | ok p =>
      have step :
          ∀ acc ns, ∃ x, x ∈ lay ∧ L.contains x = false
            ∧ load_requested_layers L acc ns lay = Except.error x := by
        intro acc ns
        obtain ⟨x0, herr⟩ :=
          load_requested_layers_error_of_missing L acc ns lay hlaymiss
        obtain ⟨hmem, hcon⟩ := load_requested_layers_error_inv _ _ _ _ _ herr
        exact ⟨x0, hmem, hcon, herr⟩
      cases dbg with
      | false =>
        obtain ⟨x0, hmem, hcon, herr⟩ := step ValidationLayers.none []
        refine ⟨x0, hmem, by simp [hE, hL, hcon], ?_, ?_⟩ <;>
          simp [Instance.with_validation_layers, hE, hL, hload, herr]
      | true =>
        cases hK : L.contains ValidationLayer.KhronosValidation with
        | true =>
          obtain ⟨x0, hmem, hcon, herr⟩ :=
            step { ValidationLayers.none with khronos_validation := true }
              [ValidationLayer.KhronosValidation.c_name]
          refine ⟨x0, hmem, by simp [hE, hL, hcon], ?_, ?_⟩ <;>
            simp [Instance.with_validation_layers, hE, hL, hload, hK, herr]
        | false =>
          obtain ⟨x0, hmem, hcon, herr⟩ := step ValidationLayers.none []
          refine ⟨x0, hmem, by simp [hE, hL, hcon], ?_, ?_⟩ <;>
            simp [Instance.with_validation_layers, hE, hL, hload, hK, herr]

/-- Witness for C1 at a concrete input: with a loader advertising nothing,
requesting `KhrSurface` fails with `MissingExtension KhrSurface` and never
reaches native context creation. -/
theorem C1_negotiation_all_or_nothing_witness :
    ∃ e, e ∈ [Extension.KhrSurface]
      ∧ (((Entry.new [] []).extensions.1).contains e = false)
      ∧ (Instance.with_validation_layers (Entry.new [] [])
          (fun _ _ => Except.ok 0) (fun _ => []) [Extension.KhrSurface] [] false).result
          = PanicOr.ok (Except.error (CreationError.MissingExtension e))
      ∧ (Instance.with_validation_layers (Entry.new [] [])
          (fun _ _ => Except.ok 0) (fun _ => []) [Extension.KhrSurface] [] false).create_call
          = Option.none :=
  (C1_negotiation_all_or_nothing (Entry.new [] []) (fun _ _ => Except.ok 0)
      (fun _ => []) [Extension.KhrSurface] [] false).1
    ⟨Extension.KhrSurface, by simp, by rfl⟩

/-- C6: the opportunistic debug layer never fails creation. When every
requested extension and every explicitly requested layer is available and the
native `create_instance` succeeds, creation succeeds whether or not the
Khronos validation layer is available; the negotiated `loaded_extensions` is
exactly the requested set, and in debug builds the debug layer's name is in
the enabled-layer list passed to the native call exactly when the layer is
available — its absence leaves the negotiated state reflecting that absence. -/
theorem C6_debug_layer_best_effort
    (entry : Entry)
    (ci : List String → List String → Except InstanceError Nat)
    (en : Nat → List PhysicalDeviceRaw)
    (req : List Extension) (lay : List ValidationLayer) (dbg : Bool)
    (hext : ∀ e ∈ req, (entry.extensions.1).contains e = true)
    (hlay : ∀ x ∈ lay, ((entry.extensions.2.1).validation_layers.1).contains x = true)
    (hcreate : ∀ xs ls, ∃ hdl, ci xs ls = Except.ok hdl) :
    (∃ inst, (Instance.with_validation_layers entry ci en req lay dbg).result
        = PanicOr.ok (Except.ok inst)
      ∧ inst.loaded_extensions = req.foldl Extensions.insert Extensions.none)
    ∧ (∃ lnames,
        (Instance.with_validation_layers entry ci en req lay dbg).create_call
          = some (req.map Extension.c_name, lnames)
      ∧ (dbg = true →
          (ValidationLayer.KhronosValidation.c_name ∈ lnames
            ↔ ((entry.extensions.2.1).validation_layers.1).contains
                ValidationLayer.KhronosValidation = true))) := by
  rcases hE : entry.extensions with ⟨A, e1, q1⟩
  rcases hL : e1.validation_layers with ⟨L, e2, q2⟩
  simp only [hE] at hext
  simp only [hE, hL] at hlay
  simp only [hE, hL]
  cases hload : load_required_extensions A Extensions.none [] req with
  | error e0 =>
    obtain ⟨hmem, hcon⟩ := load_required_extensions_error_inv _ _ _ _ _ hload
    rw [hext e0 hmem] at hcon
    cases hcon
  | ok p =>
    obtain ⟨pl, pn⟩ := p
    obtain ⟨hp1, hp2, -⟩ := load_required_extensions_ok_inv _ _ _ _ _ hload
    simp only at hp1 hp2
    subst hp1
    subst hp2
    have hnoerr : ∀ acc (ns : List String) x,
        load_requested_layers L acc ns lay ≠ Except.error x := by
      intro acc ns x0 hq
      obtain ⟨hmem, hcon⟩ := load_requested_layers_error_inv _ _ _ _ _ hq
      rw [hlay x0 hmem] at hcon
      cases hcon
    cases dbg with
    | false =>
      cases hq : load_requested_layers L ValidationLayers.none [] lay with
      | error x0 => exact absurd hq (hnoerr _ _ x0)
      | ok q =>
        obtain ⟨ql, qn⟩ := q
        obtain ⟨-, hq2, -⟩ := load_requested_layers_ok_inv _ _ _ _ _ hq
        simp only at hq2
        subst hq2
        obtain ⟨hdl, hci⟩ :=
          hcreate (req.map Extension.c_name) (lay.map ValidationLayer.c_name)
        refine
          ⟨⟨{ entry := e2
              handle := hdl
              loaded_extensions := req.foldl Extensions.insert Extensions.none
              physical_devices_info := (en hdl).map PhysicalDeviceInfo.capture
              ext_khr_surface_cell := Option.none
              ext_khr_xcb_surface_cell := Option.none
              ext_khr_xlib_surface_cell := Option.none
              ext_khr_wayland_surface_cell := Option.none }, ?_, rfl⟩,
          ⟨[] ++ lay.map ValidationLayer.c_name, ?_, by simp⟩⟩
        · simp [Instance.with_validation_layers, hE, hL, hload, hq, hci]
        · simp [Instance.with_validation_layers, hE, hL, hload, hq, hci]
    | true =>
      cases hK : L.contains ValidationLayer.KhronosValidation with
      | true =>
        cases hq : load_requested_layers L
            { ValidationLayers.none with khronos_validation := true }
            [ValidationLayer.KhronosValidation.c_name] lay with
        | error x0 => exact absurd hq (hnoerr _ _ x0)
        | ok q =>
          obtain ⟨ql, qn⟩ := q
          obtain ⟨-, hq2, -⟩ := load_requested_layers_ok_inv _ _ _ _ _ hq
          simp only at hq2
          subst hq2
          obtain ⟨hdl, hci⟩ :=
            hcreate (req.map Extension.c_name)
              (ValidationLayer.KhronosValidation.c_name :: lay.map ValidationLayer.c_name)
          refine
            ⟨⟨{ entry := e2
                handle := hdl
                loaded_extensions := req.foldl Extensions.insert Extensions.none
                physical_devices_info := (en hdl).map PhysicalDeviceInfo.capture
                ext_khr_surface_cell := Option.none
                ext_khr_xcb_surface_cell := Option.none
                ext_khr_xlib_surface_cell := Option.none
                ext_khr_wayland_surface_cell := Option.none }, ?_, rfl⟩,
            ⟨[ValidationLayer.KhronosValidation.c_name] ++ lay.map ValidationLayer.c_name,
              ?_, ?_⟩⟩
          · simp [Instance.with_validation_layers, hE, hL, hload, hK, hq, hci]
          · simp [Instance.with_validation_layers, hE, hL, hload, hK, hq, hci]
          · intro hmm
            simp [hK]
      | false =>
        have hlay_nil : lay = [] := by
          rcases lay with - | ⟨y, ys⟩
          · rfl
          · have hy := hlay y (List.mem_cons_self y ys)
            cases y
            rw [hK] at hy
            simp at hy
        subst hlay_nil
        cases hq : load_requested_layers L ValidationLayers.none [] [] with
        | error x0 => exact absurd hq (hnoerr _ _ x0)
        | ok q =>
          obtain ⟨ql, qn⟩ := q
          obtain ⟨-, hq2, -⟩ := load_requested_layers_ok_inv _ _ _ _ _ hq
          simp only at hq2
          subst hq2
          obtain ⟨hdl, hci⟩ := hcreate (req.map Extension.c_name) []
          refine
            ⟨⟨{ entry := e2
                handle := hdl
                loaded_extensions := req.foldl Extensions.insert Extensions.none
                physical_devices_info := (en hdl).map PhysicalDeviceInfo.capture
                ext_khr_surface_cell := Option.none
                ext_khr_xcb_surface_cell := Option.none
                ext_khr_xlib_surface_cell := Option.none
                ext_khr_wayland_surface_cell := Option.none }, ?_, rfl⟩,
            ⟨[] ++ [], ?_, ?_⟩⟩
          · simp [Instance.with_validation_layers, hE, hL, hload, hK, hq, hci]
          · simp [Instance.with_validation_layers, hE, hL, hload, hK, hq, hci]
          · intro hmm
            simp [hK]

/-- Witness for C6 at a concrete input: a debug build whose loader advertises
`VK_KHR_surface` but not the Khronos validation layer still creates the
instance, with `khr_surface` negotiated. -/
theorem C6_debug_layer_best_effort_witness :
    ∃ inst, (Instance.with_validation_layers (Entry.new ["VK_KHR_surface"] [])
        (fun _ _ => Except.ok 5) (fun _ => []) [Extension.KhrSurface] [] true).result
        = PanicOr.ok (Except.ok inst)
      ∧ inst.loaded_extensions =
          [Extension.KhrSurface].foldl Extensions.insert Extensions.none :=
  (C6_debug_layer_best_effort (Entry.new ["VK_KHR_surface"] [])
      (fun _ _ => Except.ok 5) (fun _ => []) [Extension.KhrSurface] [] true
      (by intro e he; simp at he; subst he; rfl)
      (by intro x hx; simp at hx)
      (fun xs ls => ⟨5, rfl⟩)).1

/-- Idempotent insertion into the extension bit-flag set. -/
theorem Extensions.insert_idem (s : Extensions) (e : Extension) :
    (s.insert e).insert e = s.insert e := by
  cases e <;> simp [Extensions.insert]

/-- C9 (amended): requesting the same extension twice is idempotent for
negotiation. For an available extension `e` and a native driver that responds
the same to the duplicated name list, creation with `[e, e]` returns the same
result (same errors, or an identical `Instance` — in particular the same
`loaded_extensions`) and the same entry state as creation with `[e]`; the one
observable difference is the extension-name list passed to native context
creation, which is not deduplicated: `e`'s name is passed once per
occurrence. -/
theorem C9_duplicate_request_idempotent
    (entry : Entry)
    (ci : List String → List String → Except InstanceError Nat)
    (en : Nat → List PhysicalDeviceRaw)
    (lay : List ValidationLayer) (dbg : Bool) (e : Extension)
    (he : (entry.extensions.1).contains e = true)
    (hci : ∀ ls, ci [e.c_name, e.c_name] ls = ci [e.c_name] ls) :
    (Instance.with_validation_layers entry ci en [e, e] lay dbg).result
      = (Instance.with_validation_layers entry ci en [e] lay dbg).result
    ∧ (Instance.with_validation_layers entry ci en [e, e] lay dbg).entry
      = (Instance.with_validation_layers entry ci en [e] lay dbg).entry
    ∧ (Instance.with_validation_layers entry ci en [e, e] lay dbg).create_call
      = ((Instance.with_validation_layers entry ci en [e] lay dbg).create_call.map
          (fun p => (e.c_name :: p.1, p.2))) := by
  rcases hE : entry.extensions with ⟨A, e1, q1⟩
  rcases hL : e1.validation_layers with ⟨L, e2, q2⟩
  simp only [hE] at he
  have hdup : load_required_extensions A Extensions.none [] [e, e]
      = Except.ok ((Extensions.none.insert e).insert e, [e.c_name, e.c_name]) := by
    simp [load_required_extensions, he]
  have hone : load_required_extensions A Extensions.none [] [e]
      = Except.ok (Extensions.none.insert e, [e.c_name]) := by
    simp [load_required_extensions, he]
  have hacc : ∀ acc (ns : List String),
      (match load_requested_layers L acc ns lay with
        | Except.error x =>
          load_requested_layers L acc ns lay = Except.error x
        | Except.ok q => load_requested_layers L acc ns lay = Except.ok q) := by
    intro acc ns
    cases hq : load_requested_layers L acc ns lay <;> simp
  cases dbg with
  | false =>
    cases hq : load_requested_layers L ValidationLayers.none [] lay with
    | error x0 =>
      refine ⟨?_, ?_, ?_⟩ <;>
        simp [Instance.with_validation_layers, hE, hL, hdup, hone, hq]
    | ok q =>
      obtain ⟨ql, qn⟩ := q
      cases hc : ci [e.c_name] qn with
      | error err =>
        refine ⟨?_, ?_, ?_⟩ <;>
          simp [Instance.with_validation_layers, hE, hL, hdup, hone, hq, hci, hc,
            Extensions.insert_idem]
      | ok hdl =>
        refine ⟨?_, ?_, ?_⟩ <;>
          simp [Instance.with_validation_layers, hE, hL, hdup, hone, hq, hci, hc,
            Extensions.insert_idem]
  | true =>
    cases hK : L.contains ValidationLayer.KhronosValidation with
    | true =>
      cases hq : load_requested_layers L
          { ValidationLayers.none with khronos_validation := true }
          [ValidationLayer.KhronosValidation.c_name] lay with
      | error x0 =>
        refine ⟨?_, ?_, ?_⟩ <;>
          simp [Instance.with_validation_layers, hE, hL, hdup, hone, hK, hq]
      | ok q =>
        obtain ⟨ql, qn⟩ := q
        cases hc : ci [e.c_name] qn with
        | error err =>
          refine ⟨?_, ?_, ?_⟩ <;>
            simp [Instance.with_validation_layers, hE, hL, hdup, hone, hK, hq, hci, hc,
              Extensions.insert_idem]
        | ok hdl =>
          refine ⟨?_, ?_, ?_⟩ <;>
            simp [Instance.with_validation_layers, hE, hL, hdup, hone, hK, hq, hci, hc,
              Extensions.insert_idem]
    | false =>
      cases hq : load_requested_layers L ValidationLayers.none [] lay with
      | error x0 =>
        refine ⟨?_, ?_, ?_⟩ <;>
          simp [Instance.with_validation_layers, hE, hL, hdup, hone, hK, hq]
      | ok q =>
        obtain ⟨ql, qn⟩ := q
        cases hc : ci [e.c_name] qn with
        | error err =>
          refine ⟨?_, ?_, ?_⟩ <;>
            simp [Instance.with_validation_layers, hE, hL, hdup, hone, hK, hq, hci, hc,
              Extensions.insert_idem]
        | ok hdl =>
          refine ⟨?_, ?_, ?_⟩ <;>
            simp [Instance.with_validation_layers, hE, hL, hdup, hone, hK, hq, hci, hc,
              Extensions.insert_idem]

/-- Witness for the amended C9 at a concrete input: duplicated and single
requests for the available `KhrSurface` produce the same creation result. -/
theorem C9_duplicate_request_idempotent_witness :
    (Instance.with_validation_layers (Entry.new ["VK_KHR_surface"] [])
        (fun _ _ => Except.ok 0) (fun _ => [])
        [Extension.KhrSurface, Extension.KhrSurface] [] false).result
      = (Instance.with_validation_layers (Entry.new ["VK_KHR_surface"] [])
        (fun _ _ => Except.ok 0) (fun _ => [])
        [Extension.KhrSurface] [] false).result :=
  (C9_duplicate_request_idempotent (Entry.new ["VK_KHR_surface"] [])
      (fun _ _ => Except.ok 0) (fun _ => []) [] false Extension.KhrSurface rfl
      (fun _ => rfl)).1

/-- Counterexample to C9 as stated: with `VK_KHR_surface` available, creation
with `[KhrSurface, KhrSurface]` succeeds but passes the extension-name list
`["VK_KHR_surface", "VK_KHR_surface"]` to native context creation, while
creation with `[KhrSurface]` passes `["VK_KHR_surface"]` — the "final
negotiated extension-name list passed to native context creation" is not the
same, duplicates are not collapsed in the list (only in the
`loaded_extensions` set). -/
theorem C9_duplicate_request_counterexample :
    (Instance.with_validation_layers (Entry.new ["VK_KHR_surface"] [])
        (fun _ _ => Except.ok 0) (fun _ => [])
        [Extension.KhrSurface, Extension.KhrSurface] [] false).create_call
      = some (["VK_KHR_surface", "VK_KHR_surface"], [])
    ∧ (Instance.with_validation_layers (Entry.new ["VK_KHR_surface"] [])
        (fun _ _ => Except.ok 0) (fun _ => [])
        [Extension.KhrSurface] [] false).create_call
      = some (["VK_KHR_surface"], [])
    ∧ (["VK_KHR_surface", "VK_KHR_surface"] : List String) ≠ ["VK_KHR_surface"] := by
  refine ⟨rfl, rfl, by decide⟩

/-- Inversion of a successful creation: the returned instance's adapter cache
is exactly the driver's enumeration for its handle, captured in order, and
its table slots start empty. -/
theorem with_validation_layers_ok_inv
    (entry : Entry)
    (ci : List String → List String → Except InstanceError Nat)
    (en : Nat → List PhysicalDeviceRaw)
    (req : List Extension) (lay : List ValidationLayer) (dbg : Bool)
    (inst : Instance)
    (hok : (Instance.with_validation_layers entry ci en req lay dbg).result
        = PanicOr.ok (Except.ok inst)) :
    inst.physical_devices_info = (en inst.handle).map PhysicalDeviceInfo.capture
    ∧ inst.ext_khr_surface_cell = Option.none
    ∧ inst.ext_khr_xcb_surface_cell = Option.none
    ∧ inst.ext_khr_xlib_surface_cell = Option.none
    ∧ inst.ext_khr_wayland_surface_cell = Option.none := by
  rcases hE : entry.extensions with ⟨A, e1, q1⟩
  rcases hL : e1.validation_layers with ⟨L, e2, q2⟩
  simp only [Instance.with_validation_layers, hE, hL] at hok
  cases hload : load_required_extensions A Extensions.none [] req with
  | error e0 => simp [hload] at hok
  | ok p =>
    obtain ⟨pl, pn⟩ := p
    simp only [hload] at hok
    have tail : ∀ (acc : ValidationLayers) (ns : List String),
        (match load_requested_layers L acc ns lay with
          | Except.error layer =>
            { result := PanicOr.ok (Except.error (CreationError.MissingValidationLayer layer))
              entry := e2
              create_call := Option.none }
          | Except.ok (_enabled_layers, layer_names) =>
            match ci pn layer_names with
            | Except.error err =>
              { result :=
                  match CreationError.from_instance_error err with
                  | PanicOr.panic msg => PanicOr.panic msg
                  | PanicOr.ok ce => PanicOr.ok (Except.error ce)
                entry := e2
                create_call := some (pn, layer_names) }
            | Except.ok handle =>
              { result := PanicOr.ok (Except.ok
                  { entry := e2
                    handle := handle
                    loaded_extensions := pl
                    physical_devices_info := (en handle).map PhysicalDeviceInfo.capture
                    ext_khr_surface_cell := Option.none
                    ext_khr_xcb_surface_cell := Option.none
                    ext_khr_xlib_surface_cell := Option.none
                    ext_khr_wayland_surface_cell := Option.none })
                entry := e2
                create_call := some (pn, layer_names) } : CreateOutcome).result
          = PanicOr.ok (Except.ok inst) →
        inst.physical_devices_info = (en inst.handle).map PhysicalDeviceInfo.capture
        ∧ inst.ext_khr_surface_cell = Option.none
        ∧ inst.ext_khr_xcb_surface_cell = Option.none
        ∧ inst.ext_khr_xlib_surface_cell = Option.none
        ∧ inst.ext_khr_wayland_surface_cell = Option.none := by
      intro acc ns htail
      cases hq : load_requested_layers L acc ns lay with
      | error x0 => simp [hq] at htail
      | ok q =>
        obtain ⟨ql, qn⟩ := q
        simp only [hq] at htail
        cases hc : ci pn qn with
        | error err =>
          simp only [hc] at htail
          cases hfe : CreationError.from_instance_error err <;> simp [hfe] at htail
        | ok hdl =>
          simp only [hc] at htail
          simp only [PanicOr.ok.injEq, Except.ok.injEq] at htail
          subst htail
          simp
    cases dbg with
    | false => exact tail ValidationLayers.none [] hok
    | true =>
      cases hK : L.contains ValidationLayer.KhronosValidation with
      | true =>
        refine tail { ValidationLayers.none with khronos_validation := true }
          [ValidationLayer.KhronosValidation.c_name] ?_
        simpa [hK] using hok
      | false =>
        refine tail ValidationLayers.none [] ?_
        simpa [hK] using hok

/-- C4: adapter cache stability. For every successfully created instance,
the adapter cache is the driver's enumeration for the created handle captured
in enumeration order; `physical_devices` yields exactly one view per adapter,
indexed `0, 1, ...` in that order; `physical_device i` is `some` for every
`i` below the adapter count and `none` for every `i` at or above it; and each
view's underlying data is the snapshot captured at creation. Both accessors
are pure functions of the instance (the driver is not an input), so repeated
calls return identical views over identical data with no further driver
query. The native enumeration reports its count as a `u32`, whence the bound
hypothesis on the adapter count. -/
theorem C4_adapter_cache_stability
    (entry : Entry)
    (ci : List String → List String → Except InstanceError Nat)
    (en : Nat → List PhysicalDeviceRaw)
    (req : List Extension) (lay : List ValidationLayer) (dbg : Bool)
    (inst : Instance)
    (hok : (Instance.with_validation_layers entry ci en req lay dbg).result
        = PanicOr.ok (Except.ok inst))
    (hfit : (en inst.handle).length < 2 ^ 32) :
    inst.physical_devices_info = (en inst.handle).map PhysicalDeviceInfo.capture
    ∧ inst.physical_devices
        = (List.range (en inst.handle).length).map (fun k => { index := k })
    ∧ (∀ k, k < (en inst.handle).length →
        inst.physical_device k = some { index := k })
    ∧ (∀ k, (en inst.handle).length ≤ k →
        inst.physical_device k = Option.none)
    ∧ (∀ k, ∀ hk : k < (en inst.handle).length,
        PhysicalDevice.info inst { index := k }
          = some (PhysicalDeviceInfo.capture ((en inst.handle).get ⟨k, hk⟩))) := by
  obtain ⟨hpdi, -, -, -, -⟩ :=
    with_validation_layers_ok_inv entry ci en req lay dbg inst hok
  have hlen : inst.physical_devices_info.length = (en inst.handle).length := by
    rw [hpdi]; simp
  refine ⟨hpdi, ?_, ?_, ?_, ?_⟩
  · simp only [Instance.physical_devices, hlen]
    rw [Nat.mod_eq_of_lt hfit]
  · intro k hk
    simp [Instance.physical_device, hlen, hk]
  · intro k hk
    simp only [Instance.physical_device, hlen]
    rw [if_neg (by omega)]
  · intro k hk
    simp [PhysicalDevice.info, hpdi, List.getElem?_map, List.getElem?_eq_getElem hk]

/-- Witness for C4 at a concrete input: a context created over a driver
reporting two adapters has views 0 and 1 and no view 2. -/
theorem C4_adapter_cache_stability_witness :
    ∃ inst : Instance,
      (Instance.with_validation_layers (Entry.new [] [])
          (fun _ _ => Except.ok 7)
          (fun _ => [PhysicalDeviceRaw.mk 1 2 3 4 [5], PhysicalDeviceRaw.mk 6 7 8 9 []])
          [] [] false).result = PanicOr.ok (Except.ok inst)
      ∧ inst.physical_device 0 = some { index := 0 }
      ∧ inst.physical_device 1 = some { index := 1 }
      ∧ inst.physical_device 2 = Option.none := by
  refine ⟨_, rfl, ?_, ?_, ?_⟩
  · exact (C4_adapter_cache_stability (Entry.new [] []) (fun _ _ => Except.ok 7)
      (fun _ => [PhysicalDeviceRaw.mk 1 2 3 4 [5], PhysicalDeviceRaw.mk 6 7 8 9 []])
      [] [] false _ rfl (by norm_num)).2.2.1 0 (by norm_num)
  · exact (C4_adapter_cache_stability (Entry.new [] []) (fun _ _ => Except.ok 7)
      (fun _ => [PhysicalDeviceRaw.mk 1 2 3 4 [5], PhysicalDeviceRaw.mk 6 7 8 9 []])
      [] [] false _ rfl (by norm_num)).2.2.1 1 (by norm_num)
  · exact (C4_adapter_cache_stability (Entry.new [] []) (fun _ _ => Except.ok 7)
      (fun _ => [PhysicalDeviceRaw.mk 1 2 3 4 [5], PhysicalDeviceRaw.mk 6 7 8 9 []])
      [] [] false _ rfl (by norm_num)).2.2.2.1 2 (by norm_num)

/-- C2: extension-table access is gated on the negotiated set. For every
reachable instance (all table slots empty or holding their own family's
resolved table, as creation establishes) and every supported extension family
`x`: when `x` is absent from `loaded_extensions` the accessor returns
`MissingExtensionError x`, leaves the instance unchanged and performs no
driver resolution; when `x` is present, every call succeeds with the same
table (the one resolved against this instance's handle), the slot holds that
table afterwards, the driver resolution is performed exactly on the first
access (when the slot is still empty), and the following call returns the
same cached table with no further resolution. -/
theorem C2_ext_table_gating (i : Instance) (hwf : i.cells_wf) (x : Extension) :
    (i.loaded_extensions.contains x = false →
      i.ext_table x = (Except.error { ext := x }, i, false))
    ∧ (i.loaded_extensions.contains x = true →
      (i.ext_table x).1 = Except.ok { ext := x, instance_handle := i.handle }
      ∧ ((i.ext_table x).2.1).ext_cell x
          = some { ext := x, instance_handle := i.handle }
      ∧ ((i.ext_table x).2.2 = true ↔ i.ext_cell x = Option.none)
      ∧ ((i.ext_table x).2.1).ext_table x
          = (Except.ok { ext := x, instance_handle := i.handle },
              (i.ext_table x).2.1, false)) := by
  cases x with
  | KhrSurface =>
    have hw := hwf Extension.KhrSurface
    simp only [Instance.ext_cell] at hw
    constructor
    · intro hl
      simp only [Extensions.contains] at hl
      cases hc : i.ext_khr_surface_cell with
      | some t =>
        have hload := (hw t (by simp [hc])).1
        simp [Extensions.contains, hl] at hload
      | none =>
        simp [Instance.ext_table, Instance.ext_khr_surface, hc, hl]
    · intro hl
      simp only [Extensions.contains] at hl
      cases hc : i.ext_khr_surface_cell with
      | some t =>
        have ht := (hw t (by simp [hc])).2
        subst ht
        refine ⟨?_, ?_, ?_, ?_⟩ <;>
          simp [Instance.ext_table, Instance.ext_khr_surface, Instance.ext_cell, hc, hl]
      | none =>
        refine ⟨?_, ?_, ?_, ?_⟩ <;>
          simp [Instance.ext_table, Instance.ext_khr_surface, Instance.ext_cell, hc, hl]
  | KhrXcbSurface =>
    have hw := hwf Extension.KhrXcbSurface
    simp only [Instance.ext_cell] at hw
    constructor
    · intro hl
      simp only [Extensions.contains] at hl
      cases hc : i.ext_khr_xcb_surface_cell with
      | some t =>
        have hload := (hw t (by simp [hc])).1
        simp [Extensions.contains, hl] at hload
      | none =>
        simp [Instance.ext_table, Instance.ext_khr_xcb_surface, hc, hl]
    · intro hl
      simp only [Extensions.contains] at hl
      cases hc : i.ext_khr_xcb_surface_cell with
      | some t =>
        have ht := (hw t (by simp [hc])).2
        subst ht
        refine ⟨?_, ?_, ?_, ?_⟩ <;>
          simp [Instance.ext_table, Instance.ext_khr_xcb_surface, Instance.ext_cell, hc, hl]
      | none =>
        refine ⟨?_, ?_, ?_, ?_⟩ <;>
          simp [Instance.ext_table, Instance.ext_khr_xcb_surface, Instance.ext_cell, hc, hl]
  | KhrXlibSurface =>
    have hw := hwf Extension.KhrXlibSurface
    simp only [Instance.ext_cell] at hw
    constructor
    · intro hl
      simp only [Extensions.contains] at hl
      cases hc : i.ext_khr_xlib_surface_cell with
      | some t =>
        have hload := (hw t (by simp [hc])).1
        simp [Extensions.contains, hl] at hload
      | none =>
        simp [Instance.ext_table, Instance.ext_khr_xlib_surface, hc, hl]
    · intro hl
      simp only [Extensions.contains] at hl
      cases hc : i.ext_khr_xlib_surface_cell with
      | some t =>
        have ht := (hw t (by simp [hc])).2
        subst ht
        refine ⟨?_, ?_, ?_, ?_⟩ <;>
          simp [Instance.ext_table, Instance.ext_khr_xlib_surface, Instance.ext_cell, hc, hl]
      | none =>
        refine ⟨?_, ?_, ?_, ?_⟩ <;>
          simp [Instance.ext_table, Instance.ext_khr_xlib_surface, Instance.ext_cell, hc, hl]
  | KhrWaylandSurface =>
    have hw := hwf Extension.KhrWaylandSurface
    simp only [Instance.ext_cell] at hw
    constructor
    · intro hl
      simp only [Extensions.contains] at hl
      cases hc : i.ext_khr_wayland_surface_cell with
      | some t =>
        have hload := (hw t (by simp [hc])).1
        simp [Extensions.contains, hl] at hload
      | none =>
        simp [Instance.ext_table, Instance.ext_khr_wayland_surface, hc, hl]
    · intro hl
      simp only [Extensions.contains] at hl
      cases hc : i.ext_khr_wayland_surface_cell with
      | some t =>
        have ht := (hw t (by simp [hc])).2
        subst ht
        refine ⟨?_, ?_, ?_, ?_⟩ <;>
          simp [Instance.ext_table, Instance.ext_khr_wayland_surface, Instance.ext_cell, hc, hl]
      | none =>
        refine ⟨?_, ?_, ?_, ?_⟩ <;>
          simp [Instance.ext_table, Instance.ext_khr_wayland_surface, Instance.ext_cell, hc, hl]

/-- Witness for C2 at a concrete input: on a fresh instance whose negotiated
set holds exactly `khr_surface`, the first table access succeeds with the
table resolved against handle 7. -/
theorem C2_ext_table_gating_witness :
    ((Instance.mk (Entry.new [] []) 7
        (Extensions.mk true false false false) []
        Option.none Option.none Option.none Option.none).ext_table
          Extension.KhrSurface).1
      = Except.ok { ext := Extension.KhrSurface, instance_handle := 7 } :=
  ((C2_ext_table_gating
      (Instance.mk (Entry.new [] []) 7
        (Extensions.mk true false false false) []
        Option.none Option.none Option.none Option.none)
      (by intro x t ht; cases x <;> simp [Instance.ext_cell] at ht)
      Extension.KhrSurface).2 rfl).1

/-- The parsed extension availability set contains a member exactly when the
driver reported its canonical name. -/
theorem ext_from_names_contains_iff (names : List String) (x : Extension) :
    (Extensions.from_names names).1.contains x = true ↔ x.c_name ∈ names := by
  rw [Extensions.from_names, ext_from_names_loop_contains]
  simp [Extensions.none, Extensions.contains, List.any_eq_true,
    ext_from_c_name_eq_some]
  cases x <;> simp [Extensions.contains, Extensions.none]

/-- The parsed layer availability set contains a member exactly when the
driver reported its canonical name. -/
theorem layer_from_names_contains_iff (names : List String) (x : ValidationLayer) :
    (ValidationLayers.from_names names).1.contains x = true ↔ x.c_name ∈ names := by
  rw [ValidationLayers.from_names, layer_from_names_loop_contains]
  simp [ValidationLayers.none, ValidationLayers.contains, List.any_eq_true,
    layer_from_c_name_eq_some]

/-- With well-formed entry caches and a native driver that reports a "not
present" code only when one of the names it was passed is genuinely not
advertised, creation never reaches the two panicking conversion branches:
negotiation passed only advertised names. -/
theorem wvl_no_not_present_panic
    (entry : Entry)
    (ci : List String → List String → Except InstanceError Nat)
    (en : Nat → List PhysicalDeviceRaw)
    (req : List Extension) (lay : List ValidationLayer) (dbg : Bool)
    (hwf : entry.cells_wf)
    (hlay_honest : ∀ xs ls,
      ci xs ls = Except.error (InstanceError.VkError VkResult.ERROR_LAYER_NOT_PRESENT) →
      ∃ n ∈ ls, n ∉ entry.instance_layer_names)
    (hext_honest : ∀ xs ls,
      ci xs ls = Except.error (InstanceError.VkError VkResult.ERROR_EXTENSION_NOT_PRESENT) →
      ∃ n ∈ xs, n ∉ entry.instance_extension_names) :
    (Instance.with_validation_layers entry ci en req lay dbg).result
      ≠ PanicOr.panic "unchecked missing layer"
    ∧ (Instance.with_validation_layers entry ci en req lay dbg).result
      ≠ PanicOr.panic "unchecked missing extension" := by
  rcases hE : entry.extensions with ⟨A, e1, q1⟩
  rcases hL : e1.validation_layers with ⟨L, e2, q2⟩
  have hA : A = (Extensions.from_names entry.instance_extension_names).1 := by
    have h := (Entry.wf_avail entry hwf).1
    rw [hE] at h
    exact h
  have hLp : L = (ValidationLayers.from_names entry.instance_layer_names).1 := by
    have h := (Entry.wf_avail entry hwf).2
    rw [hE] at h
    simp only at h
    rw [hL] at h
    exact h
  cases hload : load_required_extensions A Extensions.none [] req with
  | error e0 =>
    constructor <;> simp [Instance.with_validation_layers, hE, hL, hload]
  | ok p =>
    obtain ⟨pl, pn⟩ := p
    obtain ⟨-, hp2, hpav⟩ := load_required_extensions_ok_inv _ _ _ _ _ hload
    simp only at hp2
    have hpn_sub : ∀ n ∈ pn, n ∈ entry.instance_extension_names := by
      intro n hn
      rw [hp2] at hn
      simp at hn
      obtain ⟨e, he_mem, rfl⟩ := hn
      have hc := hpav e he_mem
      rw [hA] at hc
      exact (ext_from_names_contains_iff _ _).mp hc
    have main : ∀ (acc : ValidationLayers) (ns : List String),
        (∀ n ∈ ns, n ∈ entry.instance_layer_names) →
        ((match load_requested_layers L acc ns lay with
          | Except.error layer =>
            { result := PanicOr.ok (Except.error (CreationError.MissingValidationLayer layer))
              entry := e2
              create_call := Option.none }
          | Except.ok (_enabled_layers, layer_names) =>
            match ci pn layer_names with
            | Except.error err =>
              { result :=
                  match CreationError.from_instance_error err with
                  | PanicOr.panic msg => PanicOr.panic msg
                  | PanicOr.ok ce => PanicOr.ok (Except.error ce)
                entry := e2
                create_call := some (pn, layer_names) }
            | Except.ok handle =>
              { result := PanicOr.ok (Except.ok
                  { entry := e2
                    handle := handle
                    loaded_extensions := pl
                    physical_devices_info := (en handle).map PhysicalDeviceInfo.capture
                    ext_khr_surface_cell := Option.none
                    ext_khr_xcb_surface_cell := Option.none
                    ext_khr_xlib_surface_cell := Option.none
                    ext_khr_wayland_surface_cell := Option.none })
                entry := e2
                create_call := some (pn, layer_names) } : CreateOutcome)).result
            ≠ PanicOr.panic "unchecked missing layer"
        ∧ ((match load_requested_layers L acc ns lay with
          | Except.error layer =>
            { result := PanicOr.ok (Except.error (CreationError.MissingValidationLayer layer))
              entry := e2
              create_call := Option.none }
          | Except.ok (_enabled_layers, layer_names) =>
            match ci pn layer_names with
            | Except.error err =>
              { result :=
                  match CreationError.from_instance_error err with
                  | PanicOr.panic msg => PanicOr.panic msg
                  | PanicOr.ok ce => PanicOr.ok (Except.error ce)
                entry := e2
                create_call := some (pn, layer_names) }
            | Except.ok handle =>
              { result := PanicOr.ok (Except.ok
                  { entry := e2
                    handle := handle
                    loaded_extensions := pl
                    physical_devices_info := (en handle).map PhysicalDeviceInfo.capture
                    ext_khr_surface_cell := Option.none
                    ext_khr_xcb_surface_cell := Option.none
                    ext_khr_xlib_surface_cell := Option.none
                    ext_khr_wayland_surface_cell := Option.none })
                entry := e2
                create_call := some (pn, layer_names) } : CreateOutcome)).result
            ≠ PanicOr.panic "unchecked missing extension" := by
      intro acc ns hns
      cases hq : load_requested_layers L acc ns lay with
      | error x0 => constructor <;> simp [hq]
      | ok q =>
        obtain ⟨ql, qn⟩ := q
        obtain ⟨-, hq2, hqav⟩ := load_requested_layers_ok_inv _ _ _ _ _ hq
        simp only at hq2
        have hqn_sub : ∀ n ∈ qn, n ∈ entry.instance_layer_names := by
          intro n hn
          rw [hq2] at hn
          rcases List.mem_append.mp hn with hn | hn
          · exact hns n hn
          · simp at hn
            obtain ⟨x, hx_mem, rfl⟩ := hn
            have hc := hqav x hx_mem
            rw [hLp] at hc
            exact (layer_from_names_contains_iff _ _).mp hc
        cases hc : ci pn qn with
        | ok hdl => constructor <;> simp [hq, hc]
        | error err =>
          cases err with
          | LoadError v =>
            constructor <;> simp [hq, hc, CreationError.from_instance_error]
          | VkError r =>
            cases r with
            | ERROR_OUT_OF_HOST_MEMORY =>
              constructor <;>
                simp [hq, hc, CreationError.from_instance_error, CreationError.from_vk]
            | ERROR_OUT_OF_DEVICE_MEMORY =>
              constructor <;>
                simp [hq, hc, CreationError.from_instance_error, CreationError.from_vk]
            | ERROR_INITIALIZATION_FAILED =>
              constructor <;>
                simp [hq, hc, CreationError.from_instance_error, CreationError.from_vk]
            | ERROR_INCOMPATIBLE_DRIVER =>
              constructor <;>
                simp [hq, hc, CreationError.from_instance_error, CreationError.from_vk]
            | OTHER code =>
              constructor <;>
                simp [hq, hc, CreationError.from_instance_error, CreationError.from_vk]
            | ERROR_LAYER_NOT_PRESENT =>
              exfalso
              obtain ⟨n, hn, hnot⟩ := hlay_honest pn qn hc
              exact hnot (hqn_sub n hn)
            | ERROR_EXTENSION_NOT_PRESENT =>
              exfalso
              obtain ⟨n, hn, hnot⟩ := hext_honest pn qn hc
              exact hnot (hpn_sub n hn)
    cases dbg with
    | false =>
      have h := main ValidationLayers.none [] (by intro n hn; simp at hn)
      constructor <;>
        · simp only [Instance.with_validation_layers, hE, hL, hload]
          first
          | exact h.1
          | exact h.2
    | true =>
      cases hK : L.contains ValidationLayer.KhronosValidation with
      | true =>
        have hKn : ValidationLayer.KhronosValidation.c_name
            ∈ entry.instance_layer_names := by
          rw [hLp] at hK
          exact (layer_from_names_contains_iff _ _).mp hK
        have h := main { ValidationLayers.none with khronos_validation := true }
          [ValidationLayer.KhronosValidation.c_name]
          (by intro n hn; simp at hn; subst hn; exact hKn)
        constructor <;>
          · simp only [Instance.with_validation_layers, hE, hL, hload, hK]
            first
            | exact h.1
            | exact h.2
      | false =>
        have h := main ValidationLayers.none [] (by intro n hn; simp at hn)
        constructor <;>
          · simp only [Instance.with_validation_layers, hE, hL, hload, hK]
            first
            | exact h.1
            | exact h.2

/-- C8: the native "layer not present" and "extension not present" codes are
converted to loud panics, never to `CreationError` values; and under the
precondition that negotiation validated presence against the loader's own
reports (well-formed entry caches) and the native driver reports those codes
only when genuinely passed an unadvertised name, creation never produces
those panics — the branches are unreachable. -/
theorem C8_not_present_unreachable
    (entry : Entry)
    (ci : List String → List String → Except InstanceError Nat)
    (en : Nat → List PhysicalDeviceRaw)
    (req : List Extension) (lay : List ValidationLayer) (dbg : Bool)
    (hwf : entry.cells_wf)
    (hlay_honest : ∀ xs ls,
      ci xs ls = Except.error (InstanceError.VkError VkResult.ERROR_LAYER_NOT_PRESENT) →
      ∃ n ∈ ls, n ∉ entry.instance_layer_names)
    (hext_honest : ∀ xs ls,
      ci xs ls = Except.error (InstanceError.VkError VkResult.ERROR_EXTENSION_NOT_PRESENT) →
      ∃ n ∈ xs, n ∉ entry.instance_extension_names) :
    CreationError.from_vk VkResult.ERROR_LAYER_NOT_PRESENT
      = PanicOr.panic "unchecked missing layer"
    ∧ CreationError.from_vk VkResult.ERROR_EXTENSION_NOT_PRESENT
      = PanicOr.panic "unchecked missing extension"
    ∧ (∀ c, CreationError.from_vk VkResult.ERROR_LAYER_NOT_PRESENT ≠ PanicOr.ok c)
    ∧ (∀ c, CreationError.from_vk VkResult.ERROR_EXTENSION_NOT_PRESENT ≠ PanicOr.ok c)
    ∧ (Instance.with_validation_layers entry ci en req lay dbg).result
        ≠ PanicOr.panic "unchecked missing layer"
    ∧ (Instance.with_validation_layers entry ci en req lay dbg).result
        ≠ PanicOr.panic "unchecked missing extension" := by
  obtain ⟨h1, h2⟩ :=
    wvl_no_not_present_panic entry ci en req lay dbg hwf hlay_honest hext_honest
  exact ⟨rfl, rfl, by simp [CreationError.from_vk], by simp [CreationError.from_vk], h1, h2⟩

/-- Witness for C8 at a concrete input: a fresh entry over a driver whose
creation always succeeds never yields the "unchecked missing layer" panic. -/
theorem C8_not_present_unreachable_witness :
    (Instance.with_validation_layers (Entry.new ["VK_KHR_surface"] [])
        (fun _ _ => Except.ok 0) (fun _ => []) [Extension.KhrSurface] [] true).result
      ≠ PanicOr.panic "unchecked missing layer" :=
  (C8_not_present_unreachable (Entry.new ["VK_KHR_surface"] [])
      (fun _ _ => Except.ok 0) (fun _ => []) [Extension.KhrSurface] [] true
      ⟨Or.inl rfl, Or.inl rfl⟩
      (by intro xs ls h; simp at h)
      (by intro xs ls h; simp at h)).2.2.2.2.1

end Magma
